import Mathlib

/-!
Verification of the SEO audit analysis pipeline (`SEOAnalyzer`).

The TypeScript source is shallowly embedded: JavaScript numbers are
modelled as exact rationals (`ℚ`), `Math.round` as `jsRound`
(floor of `x + 1/2`, JavaScript's half-up rounding), the falsy-default
idiom `x || d` on numbers as `jsOrNum` (`undefined` and `0` both yield
the default), thrown exceptions as `Except String` carrying the error
message, and `NaN` results as `Option.none`.  Strings are processed as
`List Char`; the three markdown regular expressions of the source are
embedded as explicit scanners with the same leftmost-match,
resume-after-match semantics.
-/

namespace SEOAudit

/-- Whitespace test for the source's regex class (space, tab, newline,
carriage return cover every input considered here). -/
def isWhitespaceChar (c : Char) : Bool :=
  c == ' ' || c == '\t' || c == '\n' || c == '\r'

/-- Sentence terminators of the source's split pattern. -/
def isSentenceTerminator (c : Char) : Bool :=
  c == '.' || c == '!' || c == '?'

/-- Number of maximal runs of characters satisfying `p`; the Boolean
argument records whether the previous character was inside a run. -/
def countRuns (p : Char → Bool) : List Char → Bool → Nat
  | [], _ => 0
  | c :: cs, inRun =>
    if p c then (if inRun then 0 else 1) + countRuns p cs true
    else countRuns p cs false

/-- Embeds the word count of the source: split on whitespace runs, drop
empty tokens, count the remainder. -/
def wordCount (markdown : String) : Nat :=
  countRuns (fun c => !(isWhitespaceChar c)) markdown.data false

/-- Embeds the sentence count of the source: the length of the array
produced by splitting on runs of sentence terminators, which is the
number of terminator runs plus one (hence always at least 1). -/
def sentenceCount (markdown : String) : Nat :=
  countRuns isSentenceTerminator markdown.data false + 1

/-- JavaScript `Math.round`: floor of `x + 1/2` (half rounds up).
`Rat.floor` is used for kernel computability; it agrees with the
mathematical floor. -/
def jsRound (q : ℚ) : ℤ := (q + 1 / 2).floor

/-- Readability score of the content extractor.  The source computes
`Math.max(0, Math.min(100, 206.835 - 1.015*(W/S) - 84.6*(syll/W)))` with
`syll = W * 1.5`; when the word count is zero the quotient `syll/W` is
`0/0 = NaN` in JavaScript and the whole expression is `NaN`, modelled
here as `none`. -/
def readabilityScore (markdown : String) : Option ℚ :=
  let words := wordCount markdown
  let sentences := sentenceCount markdown
  if words = 0 then none
  else
    some (max 0 (min 100
      (206.835 - 1.015 * ((words : ℚ) / (sentences : ℚ))
        - 84.6 * (((words : ℚ) * 1.5) / (words : ℚ)))))

/-- Splits a character list at the first occurrence of `stop`, returning
the part before it and the part after it, or `none` when absent. -/
def splitAtChar (stop : Char) : List Char → Option (List Char × List Char)
  | [] => none
  | c :: cs =>
    if c = stop then some ([], cs)
    else
      match splitAtChar stop cs with
      | none => none
      | some (pre, post) => some (c :: pre, post)

/-- Does `pre` occur at the start of `l`? -/
def listStartsWith : List Char → List Char → Bool
  | [], _ => true
  | _ :: _, [] => false
  | a :: as, b :: bs => a == b && listStartsWith as bs

/-- Does `pat` occur as a contiguous subsequence of `l`?  Embeds
JavaScript's `String.prototype.includes`. -/
def containsSeq (pat : List Char) : List Char → Bool
  | [] => listStartsWith pat []
  | s@(_ :: rest) => listStartsWith pat s || containsSeq pat rest

/-- String wrapper for `listStartsWith` (JavaScript `startsWith`). -/
def strStartsWith (s pre : String) : Bool :=
  listStartsWith pre.data s.data

/-- String wrapper for `containsSeq` (JavaScript `includes`). -/
def strContains (s pat : String) : Bool :=
  containsSeq pat.data s.data

/-- Scanner for the link pattern of the source (text and href both
nonempty, text free of closing brackets, href free of closing
parentheses).  The fuel argument only serves termination; the scanner is
run with fuel equal to the input length, which every branch respects
since each step consumes at least one character per unit of fuel.  A
failed match attempt resumes one character after its start, a successful
match resumes after its end, exactly like a global regex `exec` loop. -/
def scanLinks : Nat → List Char → List (String × String)
  | 0, _ => []
  | _ + 1, [] => []
  | fuel + 1, c :: cs =>
    if c = '[' then
      match splitAtChar ']' cs with
      | some (text, rest1) =>
        if text = [] then scanLinks fuel cs
        else
          match rest1 with
          | '(' :: rest2 =>
            match splitAtChar ')' rest2 with
            | some (href, rest3) =>
              if href = [] then scanLinks fuel cs
              else (text.asString, href.asString) :: scanLinks fuel rest3
            | none => scanLinks fuel cs
          | _ => scanLinks fuel cs
      | none => scanLinks fuel cs
    else scanLinks fuel cs

/-- Scanner for the image pattern of the source: like the link pattern
but preceded by a bang and with a possibly empty alt text. -/
def scanImages : Nat → List Char → List (String × String)
  | 0, _ => []
  | _ + 1, [] => []
  | fuel + 1, c :: cs =>
    if c = '!' then
      match cs with
      | '[' :: cs2 =>
        match splitAtChar ']' cs2 with
        | some (alt, rest1) =>
          match rest1 with
          | '(' :: rest2 =>
            match splitAtChar ')' rest2 with
            | some (src, rest3) =>
              if src = [] then scanImages fuel cs
              else (alt.asString, src.asString) :: scanImages fuel rest3
            | none => scanImages fuel cs
          | _ => scanImages fuel cs
        | none => scanImages fuel cs
      | _ => scanImages fuel cs
    else scanImages fuel cs

/-- Splits a character list into lines at newline characters, keeping
empty lines (multiline anchors of the heading regex). -/
def splitLines : List Char → List (List Char)
  | [] => [[]]
  | c :: cs =>
    if c = '\n' then [] :: splitLines cs
    else
      match splitLines cs with
      | [] => [[c]]
      | l :: ls => (c :: l) :: ls

/-- JavaScript `trim`: strip whitespace from both ends. -/
def trimChars (l : List Char) : List Char :=
  ((l.dropWhile isWhitespaceChar).reverse.dropWhile isWhitespaceChar).reverse

/-- A markdown heading: level (number of leading hashes) and text. -/
structure Heading where
  level : Nat
  text : String
deriving DecidableEq

/-- Parses one line against the heading pattern of the source: one to
six leading hashes, at least one whitespace character, and at least one
further character; the heading text is the trimmed remainder after the
hashes.  Seven or more hashes never match (the next character after the
six-hash maximum would be a hash, not whitespace). -/
def parseHeadingLine (line : List Char) : Option Heading :=
  let hashes := line.takeWhile (fun c => c == '#')
  let rest := line.dropWhile (fun c => c == '#')
  if 1 ≤ hashes.length ∧ hashes.length ≤ 6 then
    match rest with
    | [] => none
    | c :: rest2 =>
      if isWhitespaceChar c ∧ rest2 ≠ [] then
        some { level := hashes.length, text := (trimChars rest).asString }
      else none
  else none

/-- Embeds the heading extraction loop of the source. -/
def extractHeadings (markdown : String) : List Heading :=
  (splitLines markdown.data).filterMap parseHeadingLine

/-- An extracted image reference. -/
structure ImageInfo where
  src : String
  alt : String
  hasAlt : Bool
deriving DecidableEq

/-- Embeds the image extraction loop of the source; `hasAlt` records a
nonempty alt text. -/
def extractImages (markdown : String) : List ImageInfo :=
  (scanImages markdown.data.length markdown.data).map fun p =>
    { src := p.2, alt := p.1, hasAlt := decide (0 < p.1.length) }

/-- An extracted link. -/
structure LinkInfo where
  href : String
  text : String
  isInternal : Bool
deriving DecidableEq

/-- Parsed URL object, modelling the WHATWG `URL` constructor on the
inputs the pipeline meets: a scheme is a leading letter followed by
letters, digits, plus, minus or dot, up to a colon; for the special
schemes the authority follows (leading slashes skipped, host taken up to
slash, question mark or hash, port stripped at the colon) and must be
nonempty; other schemes parse opaquely with an empty hostname.
Userinfo, percent-encoding and case normalization are not modelled —
no input considered here uses them. -/
structure URLRecord where
  protocol : String
  hostname : String
  href : String
deriving DecidableEq

/-- First character of a URL scheme. -/
def isSchemeStartChar (c : Char) : Bool :=
  decide (('a' ≤ c ∧ c ≤ 'z') ∨ ('A' ≤ c ∧ c ≤ 'Z'))

/-- Subsequent character of a URL scheme. -/
def isSchemeChar (c : Char) : Bool :=
  isSchemeStartChar c || decide ('0' ≤ c ∧ c ≤ '9') ||
    c == '+' || c == '-' || c == '.'

/-- Embeds `new URL(s)`: `none` models the thrown `TypeError` on an
unparsable input (in particular the empty string and any string without
a scheme). -/
def parseURL (s : String) : Option URLRecord :=
  match splitAtChar ':' s.data with
  | none => none
  | some (schemeChars, rest) =>
    match schemeChars with
    | [] => none
    | c0 :: ctail =>
      if isSchemeStartChar c0 ∧ ctail.all isSchemeChar then
        let scheme := schemeChars.asString
        if scheme = "http" ∨ scheme = "https" ∨ scheme = "ws" ∨
            scheme = "wss" ∨ scheme = "ftp" then
          let rest2 := rest.dropWhile (fun c => c == '/')
          let authority :=
            rest2.takeWhile (fun c => !(c == '/' || c == '?' || c == '#'))
          let afterAuth :=
            rest2.dropWhile (fun c => !(c == '/' || c == '?' || c == '#'))
          let hostname := authority.takeWhile (fun c => !(c == ':'))
          if hostname = [] then none
          else
            some { protocol := scheme ++ ":",
                   hostname := hostname.asString,
                   href := scheme ++ "://" ++ hostname.asString ++
                     (if afterAuth = [] then "/" else afterAuth.asString) }
        else
          some { protocol := scheme ++ ":", hostname := "", href := s }
      else none

/-- Impact level of an SEO factor. -/
inductive Impact where
  | high
  | medium
  | low
deriving DecidableEq

/-- Optional status of an SEO factor. -/
inductive FactorStatus where
  | pass
  | fail
  | warning
deriving DecidableEq

/-- Value attached to a factor: a string or a number. -/
inductive FactorValue where
  | str (s : String)
  | num (q : ℚ)
deriving DecidableEq

/-- An SEO factor record. -/
structure SEOFactor where
  title : String
  description : String
  impact : Impact
  category : String
  value : Option FactorValue := none
  status : Option FactorStatus := none
deriving DecidableEq

/-- The scrape metadata record.  Only the fields the pipeline reads are
modelled; `numKeys` stands for the number of keys of the record (the
source's `Object.keys(metadata).length`), and `jsonLd` for the optional
JSON-LD list (absent modelled as empty, matching the source's optional
chaining, under which an absent list compares as not greater than
zero). -/
structure Metadata where
  url : Option String := none
  title : Option String := none
  description : Option String := none
  ogTitle : Option String := none
  ogDescription : Option String := none
  ogImage : Option String := none
  twitterCard : Option String := none
  twitterTitle : Option String := none
  jsonLd : List String := []
  numKeys : Nat := 0
deriving DecidableEq

/-- The content facts extracted from the scraped markdown.  The
readability score is an `Option` because the source's computation
yields `NaN` on a page without words. -/
structure PageContent where
  title : String
  metaDescription : String
  headings : List Heading
  images : List ImageInfo
  links : List LinkInfo
  wordCount : Nat
  readabilityScore : Option ℚ
deriving DecidableEq

/-- Core Web Vitals triple. -/
structure CoreWebVitals where
  lcp : ℚ
  fid : ℚ
  cls : ℚ
deriving DecidableEq

/-- The technical metrics record built by the pipeline. -/
structure TechnicalMetrics where
  pageSpeed : ℤ
  mobileScore : ℤ
  httpsEnabled : Bool
  metaTagsCount : Nat
  headingsStructure : Bool
  imageOptimization : ℤ
  coreWebVitals : CoreWebVitals
  seoScore : ℤ
  accessibility : ℤ
  bestPractices : ℤ
  performance : ℤ
deriving DecidableEq

/-- Structured-data inspection result. -/
structure StructuredDataReport where
  hasSchema : Bool
  types : List String
  errors : List String
deriving DecidableEq

/-- Social-media inspection result. -/
structure SocialMediaReport where
  hasOpenGraph : Bool
  hasTwitterCards : Bool
  ogTitle : Option String
  ogDescription : Option String
  ogImage : Option String
deriving DecidableEq

/-- The assembled audit result. -/
structure AuditResult where
  score : ℤ
  url : String
  positiveFactors : List SEOFactor
  negativeFactors : List SEOFactor
  recommendations : List SEOFactor
  technicalMetrics : TechnicalMetrics
  pageContent : PageContent
  structuredData : StructuredDataReport
  socialMedia : SocialMediaReport
deriving DecidableEq

/-- The fields of the performance-lab report read by the pipeline.  A
`none` models an absent category or audit anywhere along the source's
optional chain. -/
structure PageSpeedData where
  performanceScore : Option ℚ := none
  accessibilityScore : Option ℚ := none
  bestPracticesScore : Option ℚ := none
  seoScore : Option ℚ := none
  lcp : Option ℚ := none
  fid : Option ℚ := none
  cls : Option ℚ := none
deriving DecidableEq

/-- Result of the scrape collaborator (the pipeline reads only the
markdown and the metadata of the scrape payload). -/
structure ScrapeResult where
  markdown : String
  metadata : Metadata
deriving DecidableEq

/-- JavaScript `x || d` on an optional number: absent and zero are both
falsy and yield the default. -/
def jsOrNum (v : Option ℚ) (d : ℚ) : ℚ :=
  match v with
  | none => d
  | some x => if x = 0 then d else x

/-- JavaScript truthiness of an optional string: absent and empty are
falsy. -/
def jsTruthyStr (v : Option String) : Bool :=
  match v with
  | none => false
  | some s => decide (s ≠ "")

/-- Error message of the `TypeError` thrown by `new URL` on an
unparsable input. -/
def invalidUrlMessage : String := "Invalid URL"

/-- The fixed wrapper message thrown by the scrape step when the scrape
collaborator fails. -/
def scrapeFailMessage : String :=
  "Failed to analyze website. Please check the URL and try again."

/-- Internal/external classification of one extracted link.  The source
evaluates `!href.startsWith('http') || href.includes(new URL(metadata.url
|| '').hostname)`; the second disjunct is only reached when the href
starts with `http`, and constructing the URL of the page throws when
that URL is missing or unparsable — modelled as an `Except.error`
carrying the `TypeError` message. -/
def linkIsInternal (href : String) (pageUrl : String) : Except String Bool :=
  if !(strStartsWith href "http") then Except.ok true
  else
    match parseURL pageUrl with
    | none => Except.error invalidUrlMessage
    | some u => Except.ok (strContains href u.hostname)

/-- Builds the link records for the extracted (text, href) pairs,
propagating the exception of `linkIsInternal`. -/
def buildLinks (pageUrl : String) :
    List (String × String) → Except String (List LinkInfo)
  | [] => Except.ok []
  | (text, href) :: rest => do
    let isInt ← linkIsInternal href pageUrl
    let tail ← buildLinks pageUrl rest
    Except.ok ({ href := href, text := text, isInternal := isInt } :: tail)

/-- Embeds `analyzePageContent`: heading, image and link extraction,
word count and readability.  The function can only fail (throw) inside
the link loop, via `linkIsInternal`. -/
def analyzePageContent (markdown : String) (metadata : Metadata) :
    Except String PageContent := do
  let headings := extractHeadings markdown
  let images := extractImages markdown
  let pageUrl := metadata.url.getD ""
  let links ← buildLinks pageUrl (scanLinks markdown.data.length markdown.data)
  Except.ok
    { title := metadata.title.getD ""
      metaDescription := metadata.description.getD ""
      headings := headings
      images := images
      links := links
      wordCount := wordCount markdown
      readabilityScore := readabilityScore markdown }

/-- Embeds the technical-metrics construction of `analyzeWebsite`:
category fractions are scaled by 100 and rounded, with falsy-defaulting
(`jsOrNum`) per field; `httpsEnabled` tests the canonical URL scheme;
`headingsStructure` and `imageOptimization` are derived from the page
content.  The source guards `metadata` with a ternary before taking its
keys; the metadata record is always present in this model, so the count
is its key count. -/
def buildTechnicalMetrics (pageSpeedData : PageSpeedData)
    (pageContent : PageContent) (cleanUrl : String) (metadata : Metadata) :
    TechnicalMetrics :=
  { pageSpeed := jsRound (jsOrNum pageSpeedData.performanceScore 0.7 * 100)
    mobileScore := jsRound (jsOrNum pageSpeedData.seoScore 0.8 * 100)
    httpsEnabled := strStartsWith cleanUrl "https://"
    metaTagsCount := metadata.numKeys
    headingsStructure :=
      (pageContent.headings.filter (fun h => h.level == 1)).length == 1
    imageOptimization :=
      jsRound ((((pageContent.images.filter (fun img => img.hasAlt)).length : ℚ) /
        ((max pageContent.images.length 1 : Nat) : ℚ)) * 100)
    coreWebVitals :=
      { lcp := jsOrNum pageSpeedData.lcp 2500
        fid := jsOrNum pageSpeedData.fid 100
        cls := jsOrNum pageSpeedData.cls 0.1 }
    seoScore := jsRound (jsOrNum pageSpeedData.seoScore 0.75 * 100)
    accessibility := jsRound (jsOrNum pageSpeedData.accessibilityScore 0.8 * 100)
    bestPractices := jsRound (jsOrNum pageSpeedData.bestPracticesScore 0.85 * 100)
    performance := jsRound (jsOrNum pageSpeedData.performanceScore 0.7 * 100) }

/-- The three factor lists produced by the factor analyzer. -/
structure FactorLists where
  positiveFactors : List SEOFactor
  negativeFactors : List SEOFactor
  recommendations : List SEOFactor
deriving DecidableEq

/-- Componentwise concatenation of factor lists; the source pushes onto
three shared arrays in rule order, which concatenation reproduces. -/
def appendFL (a b : FactorLists) : FactorLists :=
  { positiveFactors := a.positiveFactors ++ b.positiveFactors
    negativeFactors := a.negativeFactors ++ b.negativeFactors
    recommendations := a.recommendations ++ b.recommendations }

/-- Title rule of the factor analyzer (truthy title, 30–60 characters
inclusive; out of range adds a recommendation; missing title does
not). -/
def titleRule (pageContent : PageContent) : FactorLists :=
  if pageContent.title ≠ "" then
    if 30 ≤ pageContent.title.length ∧ pageContent.title.length ≤ 60 then
      { positiveFactors := [
          { title := "Optimal Title Length"
            description := "Title is " ++ toString pageContent.title.length ++
              " characters, within the recommended 30-60 range"
            impact := Impact.high
            category := "Content"
            value := some (FactorValue.num pageContent.title.length)
            status := some FactorStatus.pass }]
        negativeFactors := []
        recommendations := [] }
    else
      { positiveFactors := []
        negativeFactors := [
          { title := "Suboptimal Title Length"
            description := "Title is " ++ toString pageContent.title.length ++
              " characters. Recommended: 30-60 characters"
            impact := Impact.high
            category := "Content"
            value := some (FactorValue.num pageContent.title.length)
            status := some FactorStatus.fail }]
        recommendations := [
          { title := "Optimize Title Length"
            description := "Adjust your page title to be between 30-60 characters for better search visibility"
            impact := Impact.high
            category := "Content" }] }
  else
    { positiveFactors := []
      negativeFactors := [
        { title := "Missing Page Title"
          description := "Page is missing a title tag, which is crucial for SEO"
          impact := Impact.high
          category := "Content"
          status := some FactorStatus.fail }]
      recommendations := [] }

/-- Meta-description rule (truthy description, 120–160 characters
inclusive; no recommendation in any branch). -/
def metaDescriptionRule (pageContent : PageContent) : FactorLists :=
  if pageContent.metaDescription ≠ "" then
    if 120 ≤ pageContent.metaDescription.length ∧
        pageContent.metaDescription.length ≤ 160 then
      { positiveFactors := [
          { title := "Good Meta Description"
            description := "Meta description is " ++
              toString pageContent.metaDescription.length ++
              " characters, within optimal range"
            impact := Impact.medium
            category := "Content"
            value := some (FactorValue.num pageContent.metaDescription.length)
            status := some FactorStatus.pass }]
        negativeFactors := []
        recommendations := [] }
    else
      { positiveFactors := []
        negativeFactors := [
          { title := "Suboptimal Meta Description"
            description := "Meta description is " ++
              toString pageContent.metaDescription.length ++
              " characters. Recommended: 120-160"
            impact := Impact.medium
            category := "Content"
            value := some (FactorValue.num pageContent.metaDescription.length)
            status := some FactorStatus.warning }]
        recommendations := [] }
  else
    { positiveFactors := []
      negativeFactors := [
        { title := "Missing Meta Description"
          description := "Page lacks a meta description, missing opportunity for search snippet optimization"
          impact := Impact.medium
          category := "Content"
          status := some FactorStatus.fail }]
      recommendations := [] }

/-- Heading-structure rule on the number of level-1 headings. -/
def headingRule (pageContent : PageContent) : FactorLists :=
  let h1Count := (pageContent.headings.filter (fun h => h.level == 1)).length
  if h1Count = 1 then
    { positiveFactors := [
        { title := "Proper H1 Structure"
          description := "Page has exactly one H1 tag, following SEO best practices"
          impact := Impact.high
          category := "Content"
          status := some FactorStatus.pass }]
      negativeFactors := []
      recommendations := [] }
  else if h1Count = 0 then
    { positiveFactors := []
      negativeFactors := [
        { title := "Missing H1 Tag"
          description := "Page is missing an H1 tag, which is important for content hierarchy"
          impact := Impact.high
          category := "Content"
          status := some FactorStatus.fail }]
      recommendations := [] }
  else
    { positiveFactors := []
      negativeFactors := [
        { title := "Multiple H1 Tags"
          description := "Page has " ++ toString h1Count ++
            " H1 tags. Best practice is to have exactly one H1 per page"
          impact := Impact.medium
          category := "Content"
          value := some (FactorValue.num h1Count)
          status := some FactorStatus.warning }]
      recommendations := [] }

/-- Decimal rendering of a nonnegative rational to one fractional digit,
modelling `Number.prototype.toFixed(1)` on the alt-text percentages met
here (nonnegative, so rounding half up agrees with `toFixed`). -/
def toFixedOne (q : ℚ) : String :=
  let n := jsRound (q * 10)
  toString (n / 10) ++ "." ++ toString (n % 10)

/-- Image alt-text rule: silent when there are no images; with images,
at least 90 percent alt coverage is positive, less is negative. -/
def imageAltRule (pageContent : PageContent) : FactorLists :=
  let imagesWithoutAlt :=
    (pageContent.images.filter (fun img => !img.hasAlt)).length
  let totalImages := pageContent.images.length
  if 0 < totalImages then
    let altTextPercentage : ℚ :=
      (((totalImages - imagesWithoutAlt : Nat) : ℚ) / (totalImages : ℚ)) * 100
    if 90 ≤ altTextPercentage then
      { positiveFactors := [
          { title := "Good Image Alt Text Coverage"
            description := toFixedOne altTextPercentage ++ "% of images have alt text"
            impact := Impact.medium
            category := "Accessibility"
            value := some (FactorValue.str (toFixedOne altTextPercentage ++ "%"))
            status := some FactorStatus.pass }]
        negativeFactors := []
        recommendations := [] }
    else
      { positiveFactors := []
        negativeFactors := [
          { title := "Missing Image Alt Text"
            description := toString imagesWithoutAlt ++ " out of " ++
              toString totalImages ++ " images are missing alt text"
            impact := Impact.medium
            category := "Accessibility"
            value := some (FactorValue.str
              (toString imagesWithoutAlt ++ "/" ++ toString totalImages))
            status := some FactorStatus.fail }]
        recommendations := [] }
  else
    { positiveFactors := [], negativeFactors := [], recommendations := [] }

/-- Word-count rule: 300 words or more is positive. -/
def wordCountRule (pageContent : PageContent) : FactorLists :=
  if 300 ≤ pageContent.wordCount then
    { positiveFactors := [
        { title := "Adequate Content Length"
          description := "Page has " ++ toString pageContent.wordCount ++
            " words, providing substantial content for search engines"
          impact := Impact.medium
          category := "Content"
          value := some (FactorValue.num pageContent.wordCount)
          status := some FactorStatus.pass }]
      negativeFactors := []
      recommendations := [] }
  else
    { positiveFactors := []
      negativeFactors := [
        { title := "Thin Content"
          description := "Page has only " ++ toString pageContent.wordCount ++
            " words. Consider adding more valuable content"
          impact := Impact.medium
          category := "Content"
          value := some (FactorValue.num pageContent.wordCount)
          status := some FactorStatus.warning }]
      recommendations := [] }

/-- HTTPS rule on the technical metrics. -/
def httpsRule (technicalMetrics : TechnicalMetrics) : FactorLists :=
  if technicalMetrics.httpsEnabled then
    { positiveFactors := [
        { title := "HTTPS Enabled"
          description := "Website uses secure HTTPS protocol, which is a ranking factor"
          impact := Impact.high
          category := "Security"
          status := some FactorStatus.pass }]
      negativeFactors := []
      recommendations := [] }
  else
    { positiveFactors := []
      negativeFactors := [
        { title := "HTTPS Not Enabled"
          description := "Website is not using HTTPS, which can negatively impact rankings"
          impact := Impact.high
          category := "Security"
          status := some FactorStatus.fail }]
      recommendations := [] }

/-- Performance rule: a score of at least 80 is positive, less is
negative with a recommendation. -/
def performanceRule (technicalMetrics : TechnicalMetrics) : FactorLists :=
  if 80 ≤ technicalMetrics.performance then
    { positiveFactors := [
        { title := "Good Performance Score"
          description := "Performance score of " ++
            toString technicalMetrics.performance ++
            "/100 indicates fast loading"
          impact := Impact.high
          category := "Performance"
          value := some (FactorValue.num technicalMetrics.performance)
          status := some FactorStatus.pass }]
      negativeFactors := []
      recommendations := [] }
  else
    { positiveFactors := []
      negativeFactors := [
        { title := "Poor Performance Score"
          description := "Performance score of " ++
            toString technicalMetrics.performance ++
            "/100 needs improvement"
          impact := Impact.high
          category := "Performance"
          value := some (FactorValue.num technicalMetrics.performance)
          status := some FactorStatus.fail }]
      recommendations := [
        { title := "Improve Page Speed"
          description := "Optimize images, minify CSS/JS, and consider using a CDN to improve loading times"
          impact := Impact.high
          category := "Performance" }] }

/-- Embeds `analyzeSEOFactors`: the seven rules evaluated in source
order, each appending its contributions to the three lists.  The
metadata parameter is accepted and unused, as in the source. -/
def analyzeSEOFactors (pageContent : PageContent) (_metadata : Metadata)
    (technicalMetrics : TechnicalMetrics) : FactorLists :=
  appendFL (titleRule pageContent)
    (appendFL (metaDescriptionRule pageContent)
      (appendFL (headingRule pageContent)
        (appendFL (imageAltRule pageContent)
          (appendFL (wordCountRule pageContent)
            (appendFL (httpsRule technicalMetrics)
              (performanceRule technicalMetrics))))))

/-- Embeds `analyzeStructuredData`. -/
def analyzeStructuredData (markdown : String) (metadata : Metadata) :
    StructuredDataReport :=
  let hasSchema := strContains markdown "schema.org" ||
    strContains markdown "application/ld+json" ||
    decide (0 < metadata.jsonLd.length)
  { hasSchema := hasSchema
    types := if hasSchema then ["Organization", "WebPage"] else []
    errors := if hasSchema then [] else ["No structured data found"] }

/-- Embeds `analyzeSocialMedia`. -/
def analyzeSocialMedia (metadata : Metadata) : SocialMediaReport :=
  { hasOpenGraph := jsTruthyStr metadata.ogTitle ||
      jsTruthyStr metadata.ogDescription || jsTruthyStr metadata.ogImage
    hasTwitterCards := jsTruthyStr metadata.twitterCard ||
      jsTruthyStr metadata.twitterTitle
    ogTitle := metadata.ogTitle
    ogDescription := metadata.ogDescription
    ogImage := metadata.ogImage }

/-- Embeds the overall score aggregation of `analyzeWebsite`. -/
def computeScore (technicalMetrics : TechnicalMetrics)
    (negativeCount : Nat) : ℤ :=
  jsRound ((technicalMetrics.seoScore : ℚ) * 0.3 +
    (technicalMetrics.performance : ℚ) * 0.25 +
    (technicalMetrics.accessibility : ℚ) * 0.2 +
    (technicalMetrics.bestPractices : ℚ) * 0.15 +
    max 0 (100 - (negativeCount : ℚ) * 5) * 0.1)

/-- Observable events of one orchestrator run: progress callbacks and
collaborator invocations, in order. -/
inductive AuditEvent where
  | progress (pct : Nat)
  | scrapeCalled (url : String)
  | pageSpeedCalled (url : String)
deriving DecidableEq

/-- Embeds `analyzeWebsite`, parameterized by the scrape collaborator
and the performance-report step.  The latter is total because the
source's `getPageSpeedInsights` replaces any failure with mock data and
never throws.  The URL is validated and canonicalized first; a parse
failure is the thrown `TypeError`, surfaced before any event.  A scrape
failure is replaced by the fixed `scrapeFailMessage` wrapper (inside
`scrapeWebsite`), and a content-extraction throw propagates unchanged.
The result pairs the outcome with the event trace. -/
def analyzeWebsite (scrape : String → Except String ScrapeResult)
    (getPS : String → PageSpeedData) (url : String) :
    Except String AuditResult × List AuditEvent :=
  match parseURL url with
  | none => (Except.error invalidUrlMessage, [])
  | some urlObj =>
    let cleanUrl := urlObj.href
    match scrape cleanUrl with
    | Except.error _ =>
      (Except.error scrapeFailMessage,
        [AuditEvent.progress 10, AuditEvent.scrapeCalled cleanUrl])
    | Except.ok scraped =>
      let pageSpeedData := getPS cleanUrl
      match analyzePageContent scraped.markdown scraped.metadata with
      | Except.error e =>
        (Except.error e,
          [AuditEvent.progress 10, AuditEvent.scrapeCalled cleanUrl,
           AuditEvent.progress 30, AuditEvent.pageSpeedCalled cleanUrl,
           AuditEvent.progress 60])
      | Except.ok pageContent =>
        let technicalMetrics :=
          buildTechnicalMetrics pageSpeedData pageContent cleanUrl
            scraped.metadata
        let factors :=
          analyzeSEOFactors pageContent scraped.metadata technicalMetrics
        let structuredData :=
          analyzeStructuredData scraped.markdown scraped.metadata
        let socialMedia := analyzeSocialMedia scraped.metadata
        let score := computeScore technicalMetrics
          factors.negativeFactors.length
        (Except.ok
          { score := score
            url := cleanUrl
            positiveFactors := factors.positiveFactors
            negativeFactors := factors.negativeFactors
            recommendations := factors.recommendations
            technicalMetrics := technicalMetrics
            pageContent := pageContent
            structuredData := structuredData
            socialMedia := socialMedia },
         [AuditEvent.progress 10, AuditEvent.scrapeCalled cleanUrl,
          AuditEvent.progress 30, AuditEvent.pageSpeedCalled cleanUrl,
          AuditEvent.progress 60, AuditEvent.progress 70,
          AuditEvent.progress 80, AuditEvent.progress 90,
          AuditEvent.progress 100])

/-- The raw (unclamped) Flesch approximation, stated from the
specification's words for comparison with the extractor: words over
sentences and syllables over words, with syllables one and a half times
the word count. -/
def rawFleschSpec (markdown : String) : ℚ :=
  206.835 - 1.015 * ((wordCount markdown : ℚ) / (sentenceCount markdown : ℚ))
    - 84.6 * (((wordCount markdown : ℚ) * 1.5) / (wordCount markdown : ℚ))

/-- Empty page content, used as a neutral sample input. -/
def pcEmpty : PageContent :=
  { title := ""
    metaDescription := ""
    headings := []
    images := []
    links := []
    wordCount := 0
    readabilityScore := none }

/-- Sample technical metrics with all sub-scores in range. -/
def tmSample : TechnicalMetrics :=
  { pageSpeed := 85
    mobileScore := 90
    httpsEnabled := true
    metaTagsCount := 10
    headingsStructure := true
    imageOptimization := 100
    coreWebVitals := { lcp := 2500, fid := 100, cls := 0.1 }
    seoScore := 90
    accessibility := 80
    bestPractices := 75
    performance := 85 }

/-- Seventy-nine words and no sentence punctuation: the raw Flesch
value is negative here. -/
def mdLongNoPunct : String := String.intercalate " " (List.replicate 79 "w")

/-- A page consisting of a single absolute link. -/
def mdLinkOnly : String := "[link](http://example.com)"

/-- A metadata record with every field absent. -/
def emptyMetadata : Metadata := {}

/-- A performance report whose performance category is present with
fraction zero. -/
def psPerfZero : PageSpeedData := { performanceScore := some 0 }

/-- A performance report with every category and audit absent. -/
def psAllAbsent : PageSpeedData := {}

/-- A scrape collaborator that always fails with the message boom. -/
def scrapeAlwaysFails : String → Except String ScrapeResult :=
  fun _ => Except.error "boom"

/-- A performance-report step returning an all-absent report. -/
def psStepAbsent : String → PageSpeedData := fun _ => psAllAbsent

/-- A thirty-character title sample. -/
def title30 : String := "abcdefghijklmnopqrstuvwxyz0123"

/-- Page content whose only nonempty field is a thirty-character
title. -/
def pcTitle30 : PageContent :=
  { pcEmpty with title := title30 }

end SEOAudit

namespace SEOAudit

/-- `jsRound` agrees with the mathematical floor of `x + 1/2`. -/
theorem jsRound_eq_intFloor (q : ℚ) : jsRound q = ⌊q + 1 / 2⌋ := by
  rw [jsRound, Rat.floor_def', Rat.floor_def]

/-- The floor-based rounding is monotone within integer bounds: a
rational between `0` and `100` rounds into `0..100`. -/
theorem jsRound_bounds {q : ℚ} (h0 : 0 ≤ q) (h1 : q ≤ 100) :
    0 ≤ jsRound q ∧ jsRound q ≤ 100 := by
  rw [jsRound_eq_intFloor]
  constructor
  · exact Int.le_floor.mpr (by push_cast; linarith)
  · have : ⌊q + 1 / 2⌋ < 101 := Int.floor_lt.mpr (by push_cast; linarith)
    omega

/-- Rounding the default performance fraction. -/
theorem jsRound_default70 : jsRound ((0.7 : ℚ) * 100) = 70 := by
  rw [jsRound_eq_intFloor]; norm_num

/-- Rounding the default SEO fraction. -/
theorem jsRound_default75 : jsRound ((0.75 : ℚ) * 100) = 75 := by
  rw [jsRound_eq_intFloor]; norm_num

/-- Rounding the default accessibility fraction. -/
theorem jsRound_default80 : jsRound ((0.8 : ℚ) * 100) = 80 := by
  rw [jsRound_eq_intFloor]; norm_num

/-- Rounding the default best-practices fraction. -/
theorem jsRound_default85 : jsRound ((0.85 : ℚ) * 100) = 85 := by
  rw [jsRound_eq_intFloor]; norm_num

/-- The title rule contributes exactly one factor to the union of the
positive and negative lists. -/
theorem titleRule_count (pc : PageContent) :
    (titleRule pc).positiveFactors.length +
      (titleRule pc).negativeFactors.length = 1 := by
  unfold titleRule
  split <;> [split <;> simp; simp]

/-- The meta-description rule contributes exactly one factor. -/
theorem metaDescriptionRule_count (pc : PageContent) :
    (metaDescriptionRule pc).positiveFactors.length +
      (metaDescriptionRule pc).negativeFactors.length = 1 := by
  unfold metaDescriptionRule
  split <;> [split <;> simp; simp]

/-- The heading rule contributes exactly one factor. -/
theorem headingRule_count (pc : PageContent) :
    (headingRule pc).positiveFactors.length +
      (headingRule pc).negativeFactors.length = 1 := by
  simp only [headingRule]
  split <;> [simp; split <;> simp]

/-- The image alt-text rule contributes at most one factor. -/
theorem imageAltRule_count (pc : PageContent) :
    (imageAltRule pc).positiveFactors.length +
      (imageAltRule pc).negativeFactors.length ≤ 1 := by
  simp only [imageAltRule]
  split <;> [split <;> simp; simp]

/-- The word-count rule contributes exactly one factor. -/
theorem wordCountRule_count (pc : PageContent) :
    (wordCountRule pc).positiveFactors.length +
      (wordCountRule pc).negativeFactors.length = 1 := by
  unfold wordCountRule
  split <;> simp

/-- The HTTPS rule contributes exactly one factor. -/
theorem httpsRule_count (tm : TechnicalMetrics) :
    (httpsRule tm).positiveFactors.length +
      (httpsRule tm).negativeFactors.length = 1 := by
  unfold httpsRule
  split <;> simp

/-- The performance rule contributes exactly one factor. -/
theorem performanceRule_count (tm : TechnicalMetrics) :
    (performanceRule tm).positiveFactors.length +
      (performanceRule tm).negativeFactors.length = 1 := by
  unfold performanceRule
  split <;> simp

/-- The meta-description rule never emits a recommendation. -/
theorem metaDescriptionRule_recs (pc : PageContent) :
    (metaDescriptionRule pc).recommendations = [] := by
  unfold metaDescriptionRule
  split <;> [split <;> rfl; rfl]

/-- The heading rule never emits a recommendation. -/
theorem headingRule_recs (pc : PageContent) :
    (headingRule pc).recommendations = [] := by
  simp only [headingRule]
  split <;> [rfl; split <;> rfl]

/-- The image alt-text rule never emits a recommendation. -/
theorem imageAltRule_recs (pc : PageContent) :
    (imageAltRule pc).recommendations = [] := by
  simp only [imageAltRule]
  split <;> [split <;> rfl; rfl]

/-- The word-count rule never emits a recommendation. -/
theorem wordCountRule_recs (pc : PageContent) :
    (wordCountRule pc).recommendations = [] := by
  unfold wordCountRule
  split <;> rfl

/-- The HTTPS rule never emits a recommendation. -/
theorem httpsRule_recs (tm : TechnicalMetrics) :
    (httpsRule tm).recommendations = [] := by
  unfold httpsRule
  split <;> rfl

/-- Any recommendation of the performance rule is the page-speed one. -/
theorem performanceRule_recs (tm : TechnicalMetrics) :
    ∀ r ∈ (performanceRule tm).recommendations,
      r.title = "Improve Page Speed" := by
  unfold performanceRule
  split <;> simp

set_option maxRecDepth 40000 in
/-- C2 (counterexample): on seventy-nine words without sentence
punctuation the raw Flesch approximation is negative, yet the extractor
returns zero — the extractor does clamp, contradicting the claim that
the raw value is returned as computed. -/
theorem C2_readability_clamped_counterexample :
    readabilityScore mdLongNoPunct = some 0 ∧
      rawFleschSpec mdLongNoPunct < 0 := by
  have hw : wordCount mdLongNoPunct = 79 := by decide
  have hs : sentenceCount mdLongNoPunct = 1 := by decide
  constructor
  · rw [readabilityScore, hw, hs]
    norm_num
  · rw [rawFleschSpec, hw, hs]
    norm_num

/-- C2 (amended): on any markdown with at least one word token the
extractor returns the Flesch approximation clamped to the interval
`[0, 100]` through `max 0 (min 100 ·)`; with zero word tokens the
result is `NaN` (modelled `none`), not a number at all. -/
theorem C2_readability_amended (markdown : String)
    (h : 0 < wordCount markdown) :
    readabilityScore markdown =
      some (max 0 (min 100 (rawFleschSpec markdown))) := by
  rw [readabilityScore, rawFleschSpec, if_neg (by omega)]

/-- Witness for the amended C2 at a concrete two-word input. -/
theorem C2_readability_amended_witness :
    0 < wordCount "hello world." ∧
      readabilityScore "hello world." =
        some (max 0 (min 100 (rawFleschSpec "hello world."))) :=
  ⟨by decide, C2_readability_amended "hello world." (by decide)⟩

/-- C10: with at least one word token the extractor's readability score
is a rational in the closed interval `[0, 100]`; with zero word tokens
no number is produced at all (the JavaScript value is `NaN`), so the
bound is indeed not guaranteed there. -/
theorem C10_readability_bounds :
    (∀ markdown : String, 1 ≤ wordCount markdown →
      ∃ r : ℚ, readabilityScore markdown = some r ∧ 0 ≤ r ∧ r ≤ 100) ∧
    readabilityScore "" = none := by
  constructor
  · intro markdown h
    rw [readabilityScore, if_neg (by omega)]
    exact ⟨_, rfl, le_max_left _ _,
      max_le (by norm_num) (min_le_left _ _)⟩
  · rfl

/-- Witness for C10 at a concrete two-word input. -/
theorem C10_readability_bounds_witness :
    ∃ r : ℚ, readabilityScore "hello world." = some r ∧ 0 ≤ r ∧ r ≤ 100 :=
  C10_readability_bounds.1 "hello world." (by decide)

set_option maxRecDepth 40000 in
/-- C3: evaluating the content extractor on a page holding one absolute
link while the page's own URL is absent does not return a link
classified as external — it throws the URL `TypeError` (the source
constructs `new URL(metadata.url || '')`, and `new URL('')` throws), so
the extractor crashes exactly where the specification demands it must
not. -/
theorem C3_link_extraction_throws :
    analyzePageContent mdLinkOnly emptyMetadata =
      Except.error invalidUrlMessage := by
  rfl

/-- C5: on any input the URL parser rejects, the orchestrator fails
with the invalid-URL error immediately: no progress callback fires and
no collaborator — in particular not the scrape collaborator — is
invoked (the event trace is empty). -/
theorem C5_invalid_url_before_io
    (scrape : String → Except String ScrapeResult)
    (getPS : String → PageSpeedData) (url : String)
    (h : parseURL url = none) :
    analyzeWebsite scrape getPS url = (Except.error invalidUrlMessage, []) := by
  unfold analyzeWebsite
  rw [h]

/-- Witness for C5 on the unparsable input of the specification. -/
theorem C5_invalid_url_before_io_witness :
    analyzeWebsite scrapeAlwaysFails psStepAbsent "not a url" =
      (Except.error invalidUrlMessage, []) :=
  C5_invalid_url_before_io scrapeAlwaysFails psStepAbsent "not a url"
    (by decide)

set_option maxRecDepth 40000 in
/-- C6 (counterexample): when the scrape collaborator fails with the
message boom, the orchestrator surfaces the fixed wrapper message
instead — the collaborator's error is replaced, not propagated
unchanged as the claim states. -/
theorem C6_scrape_error_replaced_counterexample :
    (analyzeWebsite scrapeAlwaysFails psStepAbsent "https://example.com").1 =
      Except.error scrapeFailMessage ∧ scrapeFailMessage ≠ "boom" := by
  exact ⟨rfl, by decide⟩

/-- C6 (amended): for every valid URL whose scrape fails, the
orchestrator fails — no partial audit result is observable — and the
surfaced error is the fixed wrapper message of the scrape step, which
replaces the collaborator's own error. -/
theorem C6_scrape_failure_amended
    (scrape : String → Except String ScrapeResult)
    (getPS : String → PageSpeedData) (url : String) (u : URLRecord)
    (e : String) (hu : parseURL url = some u)
    (hs : scrape u.href = Except.error e) :
    (analyzeWebsite scrape getPS url).1 = Except.error scrapeFailMessage ∧
      ∀ res : AuditResult,
        (analyzeWebsite scrape getPS url).1 ≠ Except.ok res := by
  have hres : (analyzeWebsite scrape getPS url).1 =
      Except.error scrapeFailMessage := by
    unfold analyzeWebsite
    rw [hu]
    simp [hs]
  refine ⟨hres, fun res h => ?_⟩
  rw [hres] at h
  exact Except.noConfusion h

/-- Witness for the amended C6 at a concrete URL and failing scrape. -/
theorem C6_scrape_failure_amended_witness :
    (analyzeWebsite scrapeAlwaysFails psStepAbsent "https://example.com").1 =
      Except.error scrapeFailMessage :=
  (C6_scrape_failure_amended scrapeAlwaysFails psStepAbsent
    "https://example.com"
    { protocol := "https:", hostname := "example.com",
      href := "https://example.com/" }
    "boom" (by decide) rfl).1

/-- C1: the overall score equals the specification's weighted rounding
formula, the aggregation is a deterministic pure function of the
technical metrics and the negative-factor count, the result lies in
`0..100` whenever the four sub-scores do, and every successful
orchestrator run carries exactly this aggregate in its `score` field. -/
theorem C1_score_aggregation (tm : TechnicalMetrics) (n : ℕ)
    (h1 : 0 ≤ tm.seoScore) (h2 : tm.seoScore ≤ 100)
    (h3 : 0 ≤ tm.performance) (h4 : tm.performance ≤ 100)
    (h5 : 0 ≤ tm.accessibility) (h6 : tm.accessibility ≤ 100)
    (h7 : 0 ≤ tm.bestPractices) (h8 : tm.bestPractices ≤ 100) :
    computeScore tm n =
      jsRound ((tm.seoScore : ℚ) * 0.30 + (tm.performance : ℚ) * 0.25 +
        (tm.accessibility : ℚ) * 0.20 + (tm.bestPractices : ℚ) * 0.15 +
        max 0 (100 - (n : ℚ) * 5) * 0.10) ∧
    computeScore tm n = computeScore tm n ∧
    (0 ≤ computeScore tm n ∧ computeScore tm n ≤ 100) ∧
    (∀ (scrape : String → Except String ScrapeResult)
        (getPS : String → PageSpeedData) (url : String)
        (res : AuditResult) (events : List AuditEvent),
      analyzeWebsite scrape getPS url = (Except.ok res, events) →
      res.score = computeScore res.technicalMetrics
        res.negativeFactors.length) := by
  have hq1 : (0 : ℚ) ≤ (tm.seoScore : ℚ) := by exact_mod_cast h1
  have hq2 : (tm.seoScore : ℚ) ≤ 100 := by exact_mod_cast h2
  have hq3 : (0 : ℚ) ≤ (tm.performance : ℚ) := by exact_mod_cast h3
  have hq4 : (tm.performance : ℚ) ≤ 100 := by exact_mod_cast h4
  have hq5 : (0 : ℚ) ≤ (tm.accessibility : ℚ) := by exact_mod_cast h5
  have hq6 : (tm.accessibility : ℚ) ≤ 100 := by exact_mod_cast h6
  have hq7 : (0 : ℚ) ≤ (tm.bestPractices : ℚ) := by exact_mod_cast h7
  have hq8 : (tm.bestPractices : ℚ) ≤ 100 := by exact_mod_cast h8
  have hm0 : (0 : ℚ) ≤ max 0 (100 - (n : ℚ) * 5) := le_max_left _ _
  have hm1 : max 0 (100 - (n : ℚ) * 5) ≤ 100 := by
    apply max_le (by norm_num)
    have : (0 : ℚ) ≤ (n : ℚ) * 5 := by positivity
    linarith
  refine ⟨by norm_num [computeScore], rfl, ?_, ?_⟩
  · apply jsRound_bounds
    · nlinarith
    · nlinarith
  · intro scrape getPS url res events h
    unfold analyzeWebsite at h
    split at h
    · simp at h
    · try dsimp only at h
      split at h
      · simp at h
      · try dsimp only at h
        split at h
        · simp at h
        · simp only [Prod.mk.injEq, Except.ok.injEq] at h
          obtain ⟨h1, -⟩ := h
          subst h1
          rfl

/-- Witness for C1 at the sample metrics and two negative factors. -/
theorem C1_score_aggregation_witness :
    0 ≤ computeScore tmSample 2 ∧ computeScore tmSample 2 ≤ 100 :=
  (C1_score_aggregation tmSample 2 (by decide) (by decide) (by decide)
    (by decide) (by decide) (by decide) (by decide) (by decide)).2.2.1

/-- The falsy-default idiom yields the default on an absent or zero
value. -/
theorem jsOrNum_default {v : Option ℚ} {d : ℚ}
    (h : v = none ∨ v = some 0) : jsOrNum v d = d := by
  rcases h with h | h <;> simp [jsOrNum, h]

/-- The falsy-default idiom passes a present nonzero value through. -/
theorem jsOrNum_present {v : Option ℚ} {d q : ℚ} (h : v = some q)
    (hq : q ≠ 0) : jsOrNum v d = q := by
  simp [jsOrNum, h, hq]

/-- C4 (counterexample): a performance category that is present with
fraction zero is not mapped to `round(0 * 100) = 0` as the claim's
universal mapping statement requires — the falsy-default idiom replaces
the zero with the default, giving 70. -/
theorem C4_zero_fraction_counterexample :
    (buildTechnicalMetrics psPerfZero pcEmpty "https://example.com/"
      emptyMetadata).performance = 70 ∧
    jsRound ((0 : ℚ) * 100) = 0 ∧ (70 : ℤ) ≠ 0 := by
  refine ⟨?_, ?_, by decide⟩
  · simp only [buildTechnicalMetrics, psPerfZero]
    rw [jsOrNum_default (Or.inr rfl)]
    exact jsRound_default70
  · rw [jsRound_eq_intFloor]
    norm_num

/-- C4 (amended): an absent category or audit is replaced by its fixed
default (performance 70, SEO 75, accessibility 80, best-practices 85,
LCP 2500, FID 100, CLS 0.1), and so is a present value of zero, which
the falsy-default idiom cannot distinguish from absence; present
nonzero fractions are mapped to `round(fraction * 100)`.  The builder
is a total function, so a partial report always yields a complete
record. -/
theorem C4_defaults_amended (psd : PageSpeedData) (pc : PageContent)
    (url : String) (md : Metadata) :
    ((psd.performanceScore = none ∨ psd.performanceScore = some 0) →
      (buildTechnicalMetrics psd pc url md).performance = 70) ∧
    (∀ q : ℚ, psd.performanceScore = some q → q ≠ 0 →
      (buildTechnicalMetrics psd pc url md).performance = jsRound (q * 100)) ∧
    ((psd.seoScore = none ∨ psd.seoScore = some 0) →
      (buildTechnicalMetrics psd pc url md).seoScore = 75) ∧
    (∀ q : ℚ, psd.seoScore = some q → q ≠ 0 →
      (buildTechnicalMetrics psd pc url md).seoScore = jsRound (q * 100)) ∧
    ((psd.accessibilityScore = none ∨ psd.accessibilityScore = some 0) →
      (buildTechnicalMetrics psd pc url md).accessibility = 80) ∧
    (∀ q : ℚ, psd.accessibilityScore = some q → q ≠ 0 →
      (buildTechnicalMetrics psd pc url md).accessibility = jsRound (q * 100)) ∧
    ((psd.bestPracticesScore = none ∨ psd.bestPracticesScore = some 0) →
      (buildTechnicalMetrics psd pc url md).bestPractices = 85) ∧
    (∀ q : ℚ, psd.bestPracticesScore = some q → q ≠ 0 →
      (buildTechnicalMetrics psd pc url md).bestPractices = jsRound (q * 100)) ∧
    ((psd.lcp = none ∨ psd.lcp = some 0) →
      (buildTechnicalMetrics psd pc url md).coreWebVitals.lcp = 2500) ∧
    ((psd.fid = none ∨ psd.fid = some 0) →
      (buildTechnicalMetrics psd pc url md).coreWebVitals.fid = 100) ∧
    ((psd.cls = none ∨ psd.cls = some 0) →
      (buildTechnicalMetrics psd pc url md).coreWebVitals.cls = 0.1) := by
  refine ⟨?_, ?_, ?_, ?_, ?_, ?_, ?_, ?_, ?_, ?_, ?_⟩
  · intro h
    simp only [buildTechnicalMetrics]
    rw [jsOrNum_default h]
    exact jsRound_default70
  · intro q hq hq0
    simp only [buildTechnicalMetrics]
    rw [jsOrNum_present hq hq0]
  · intro h
    simp only [buildTechnicalMetrics]
    rw [jsOrNum_default h]
    exact jsRound_default75
  · intro q hq hq0
    simp only [buildTechnicalMetrics]
    rw [jsOrNum_present hq hq0]
  · intro h
    simp only [buildTechnicalMetrics]
    rw [jsOrNum_default h]
    exact jsRound_default80
  · intro q hq hq0
    simp only [buildTechnicalMetrics]
    rw [jsOrNum_present hq hq0]
  · intro h
    simp only [buildTechnicalMetrics]
    rw [jsOrNum_default h]
    exact jsRound_default85
  · intro q hq hq0
    simp only [buildTechnicalMetrics]
    rw [jsOrNum_present hq hq0]
  · intro h
    simp only [buildTechnicalMetrics]
    rw [jsOrNum_default h]
  · intro h
    simp only [buildTechnicalMetrics]
    rw [jsOrNum_default h]
  · intro h
    simp only [buildTechnicalMetrics]
    rw [jsOrNum_default h]

/-- Witness for the amended C4 on the all-absent report. -/
theorem C4_defaults_amended_witness :
    (buildTechnicalMetrics psAllAbsent pcEmpty "https://example.com/"
      emptyMetadata).performance = 70 ∧
    (buildTechnicalMetrics psAllAbsent pcEmpty "https://example.com/"
      emptyMetadata).seoScore = 75 ∧
    (buildTechnicalMetrics psAllAbsent pcEmpty "https://example.com/"
      emptyMetadata).accessibility = 80 ∧
    (buildTechnicalMetrics psAllAbsent pcEmpty "https://example.com/"
      emptyMetadata).bestPractices = 85 ∧
    (buildTechnicalMetrics psAllAbsent pcEmpty "https://example.com/"
      emptyMetadata).coreWebVitals.lcp = 2500 :=
  ⟨(C4_defaults_amended psAllAbsent pcEmpty "https://example.com/"
      emptyMetadata).1 (Or.inl rfl),
   (C4_defaults_amended psAllAbsent pcEmpty "https://example.com/"
      emptyMetadata).2.2.1 (Or.inl rfl),
   (C4_defaults_amended psAllAbsent pcEmpty "https://example.com/"
      emptyMetadata).2.2.2.2.1 (Or.inl rfl),
   (C4_defaults_amended psAllAbsent pcEmpty "https://example.com/"
      emptyMetadata).2.2.2.2.2.2.1 (Or.inl rfl),
   (C4_defaults_amended psAllAbsent pcEmpty "https://example.com/"
      emptyMetadata).2.2.2.2.2.2.2.2.1 (Or.inl rfl)⟩

/-- C7: the title-length rule is boundary-inclusive — lengths exactly
30 or 60 yield the positive high-impact pass factor; lengths 29 or 61
yield the negative high-impact factor together with the title-length
recommendation; an empty title yields the missing-title negative factor
and no title-length recommendation anywhere in the output. -/
theorem C7_title_boundaries (pc : PageContent) (md : Metadata)
    (tm : TechnicalMetrics) :
    ((pc.title.length = 30 ∨ pc.title.length = 60) →
      ∃ f ∈ (analyzeSEOFactors pc md tm).positiveFactors,
        f.title = "Optimal Title Length" ∧ f.impact = Impact.high ∧
          f.status = some FactorStatus.pass) ∧
    ((pc.title.length = 29 ∨ pc.title.length = 61) →
      (∃ f ∈ (analyzeSEOFactors pc md tm).negativeFactors,
        f.title = "Suboptimal Title Length" ∧ f.impact = Impact.high) ∧
      ∃ r ∈ (analyzeSEOFactors pc md tm).recommendations,
        r.title = "Optimize Title Length") ∧
    (pc.title = "" →
      (∃ f ∈ (analyzeSEOFactors pc md tm).negativeFactors,
        f.title = "Missing Page Title" ∧ f.impact = Impact.high) ∧
      ∀ r ∈ (analyzeSEOFactors pc md tm).recommendations,
        r.title ≠ "Optimize Title Length") := by
  refine ⟨?_, ?_, ?_⟩
  · intro h
    have hne : pc.title ≠ "" := by
      intro he
      rw [he] at h
      simp at h
    have hr : 30 ≤ pc.title.length ∧ pc.title.length ≤ 60 := by
      rcases h with h | h <;> omega
    simp only [analyzeSEOFactors, appendFL, titleRule, if_pos hne, if_pos hr]
    exact ⟨_, List.mem_append_left _ (List.mem_singleton_self _),
      rfl, rfl, rfl⟩
  · intro h
    have hne : pc.title ≠ "" := by
      intro he
      rw [he] at h
      simp at h
    have hr : ¬(30 ≤ pc.title.length ∧ pc.title.length ≤ 60) := by
      rcases h with h | h <;> omega
    simp only [analyzeSEOFactors, appendFL, titleRule, if_pos hne, if_neg hr]
    exact ⟨⟨_, List.mem_append_left _ (List.mem_singleton_self _), rfl, rfl⟩,
      _, List.mem_append_left _ (List.mem_singleton_self _), rfl⟩
  · intro h
    have hne : ¬(pc.title ≠ "") := by simp [h]
    constructor
    · simp only [analyzeSEOFactors, appendFL, titleRule, if_neg hne]
      exact ⟨_, List.mem_append_left _ (List.mem_singleton_self _), rfl, rfl⟩
    · intro r hr
      simp only [analyzeSEOFactors, appendFL, titleRule, if_neg hne,
        metaDescriptionRule_recs, headingRule_recs, imageAltRule_recs,
        wordCountRule_recs, httpsRule_recs, List.nil_append,
        List.append_nil] at hr
      have := performanceRule_recs tm r hr
      rw [this]
      decide

/-- Witness for C7 at a concrete thirty-character title. -/
theorem C7_title_boundaries_witness :
    ∃ f ∈ (analyzeSEOFactors pcTitle30 emptyMetadata
        tmSample).positiveFactors,
      f.title = "Optimal Title Length" ∧ f.impact = Impact.high ∧
        f.status = some FactorStatus.pass :=
  (C7_title_boundaries pcTitle30 emptyMetadata tmSample).1
    (Or.inl (by decide))

/-- C8: the built technical metrics satisfy both derived invariants —
the heading-structure flag holds exactly when the page has one level-1
heading, and the image-optimization score is the rounded alt-coverage
percentage with the division-by-zero guard, yielding 0 on a page
without images. -/
theorem C8_derived_invariants (psd : PageSpeedData) (pc : PageContent)
    (url : String) (md : Metadata) :
    ((buildTechnicalMetrics psd pc url md).headingsStructure = true ↔
      pc.headings.countP (fun h => h.level == 1) = 1) ∧
    (buildTechnicalMetrics psd pc url md).imageOptimization =
      jsRound (100 * (pc.images.countP (fun img => img.hasAlt) : ℚ) /
        max (pc.images.length : ℚ) 1) ∧
    (pc.images = [] →
      (buildTechnicalMetrics psd pc url md).imageOptimization = 0) := by
  refine ⟨?_, ?_, ?_⟩
  · simp [buildTechnicalMetrics, List.countP_eq_length_filter]
  · simp only [buildTechnicalMetrics]
    rw [List.countP_eq_length_filter, Nat.cast_max]
    ring_nf
  · intro h
    simp only [buildTechnicalMetrics, h]
    rw [jsRound_eq_intFloor]
    norm_num

/-- Witness for C8 on the empty page content. -/
theorem C8_derived_invariants_witness :
    (buildTechnicalMetrics psAllAbsent pcEmpty "https://example.com/"
      emptyMetadata).imageOptimization = 0 :=
  (C8_derived_invariants psAllAbsent pcEmpty "https://example.com/"
    emptyMetadata).2.2 rfl

/-- C9: the factor analyzer evaluates seven concerns, contributing at
most seven factors across the positive and negative lists, so at most
seven negative factors arise; hence the guarded term of the score
formula is at least 65 and the guard never binds — the aggregate equals
the formula with the bare (unguarded) negative-factor term. -/
theorem C9_rule_counts (pc : PageContent) (md : Metadata)
    (tm : TechnicalMetrics) :
    (analyzeSEOFactors pc md tm).negativeFactors.length ≤ 7 ∧
    (analyzeSEOFactors pc md tm).positiveFactors.length +
      (analyzeSEOFactors pc md tm).negativeFactors.length ≤ 7 ∧
    (65 : ℚ) ≤ max 0
      (100 - ((analyzeSEOFactors pc md tm).negativeFactors.length : ℚ) * 5) ∧
    max 0 (100 -
        ((analyzeSEOFactors pc md tm).negativeFactors.length : ℚ) * 5) =
      100 - ((analyzeSEOFactors pc md tm).negativeFactors.length : ℚ) * 5 ∧
    computeScore tm (analyzeSEOFactors pc md tm).negativeFactors.length =
      jsRound ((tm.seoScore : ℚ) * 0.3 + (tm.performance : ℚ) * 0.25 +
        (tm.accessibility : ℚ) * 0.2 + (tm.bestPractices : ℚ) * 0.15 +
        (100 - ((analyzeSEOFactors pc md tm).negativeFactors.length : ℚ) * 5)
          * 0.1) := by
  have t1 := titleRule_count pc
  have t2 := metaDescriptionRule_count pc
  have t3 := headingRule_count pc
  have t4 := imageAltRule_count pc
  have t5 := wordCountRule_count pc
  have t6 := httpsRule_count tm
  have t7 := performanceRule_count tm
  have hsum : (analyzeSEOFactors pc md tm).positiveFactors.length +
      (analyzeSEOFactors pc md tm).negativeFactors.length ≤ 7 := by
    simp only [analyzeSEOFactors, appendFL, List.length_append]
    omega
  have hneg : (analyzeSEOFactors pc md tm).negativeFactors.length ≤ 7 := by
    omega
  have hcast :
      ((analyzeSEOFactors pc md tm).negativeFactors.length : ℚ) ≤ 7 := by
    exact_mod_cast hneg
  have h65 : (65 : ℚ) ≤
      100 - ((analyzeSEOFactors pc md tm).negativeFactors.length : ℚ) * 5 := by
    linarith
  have hmax : max 0 (100 -
        ((analyzeSEOFactors pc md tm).negativeFactors.length : ℚ) * 5) =
      100 - ((analyzeSEOFactors pc md tm).negativeFactors.length : ℚ) * 5 :=
    max_eq_right (by linarith)
  refine ⟨hneg, hsum, ?_, hmax, ?_⟩
  · rw [hmax]
    exact h65
  · simp only [computeScore, hmax]

end SEOAudit
